import Mathlib

/-
Shallow embedding of src/Poolmain.py (Raspberry Pi pool pump controller,
version 2.3).  Timestamps are modelled as seconds (Int) in the local clock
frame; a stored deadline string is either a value that parses to an instant
or an unparseable string.  The process state is the in-memory settings dict
plus the persisted settings file, the commanded pump relay and the commanded
cell-bridge relay.  GPIO writes, the HTML template, threading and the lock
are outside the model; the operations below are the sequential bodies of the
corresponding Python functions.
-/

namespace Pool

/-- A stored timestamp string: either parses (datetime.fromisoformat succeeds,
yielding an instant in seconds) or is unparseable (fromisoformat raises). -/
inductive TS where
  | valid (t : Int)
  | invalid
deriving DecidableEq, Repr

/-- Models datetime.fromisoformat: some instant on success, none when the
Python call would raise. -/
def fromisoformat : TS → Option Int
  | TS.valid t => some t
  | TS.invalid => none

/-- The persisted settings document (DEFAULT_SETTINGS keys).  mode is the raw
string stored by the /set route (none models a missing form field / JSON
null).  A deadline field is none when the dict holds None (or an empty,
falsy string). -/
structure Settings where
  mode : Option String
  manual_state : Bool
  manual_on_until : Option TS
  schedule : List Bool
  boost_until : Option TS
  pwm_duty : Int
  dst : Bool
  last_updated : Option Int
deriving DecidableEq, Repr

/-- DEFAULT_SETTINGS from Poolmain.py. -/
def DEFAULT_SETTINGS : Settings :=
  { mode := some "auto"
  , manual_state := false
  , manual_on_until := none
  , schedule := List.replicate 24 false
  , boost_until := none
  , pwm_duty := 0
  , dst := false
  , last_updated := none }

/-- A settings document as read from settings.json after a successful parse:
each key may be absent (outer none). -/
structure Doc where
  mode : Option (Option String)
  manual_state : Option Bool
  manual_on_until : Option (Option TS)
  schedule : Option (List Bool)
  boost_until : Option (Option TS)
  pwm_duty : Option Int
  dst : Option Bool
  last_updated : Option (Option Int)
deriving DecidableEq, Repr

/-- load_settings, successful-parse path: every key missing from the document
is filled with its default, then a schedule whose length is not 24 is
replaced wholesale by 24 false entries.  (When the file is absent or json
parsing raises, the Python function returns DEFAULT_SETTINGS.copy(); that
branch takes no document and is not modelled here.) -/
def load_settings (d : Doc) : Settings :=
  let schedule0 := d.schedule.getD (List.replicate 24 false)
  { mode := d.mode.getD (some "auto")
  , manual_state := d.manual_state.getD false
  , manual_on_until := d.manual_on_until.getD none
  , schedule := if schedule0.length ≠ 24 then List.replicate 24 false else schedule0
  , boost_until := d.boost_until.getD none
  , pwm_duty := d.pwm_duty.getD 0
  , dst := d.dst.getD false
  , last_updated := d.last_updated.getD none }

/-- save_settings stamps last_updated on the dict it is given and writes that
dict to the file.  (The Python code stamps UTC now; the claims never inspect
last_updated, so the same clock value is threaded.) -/
def save_settings (s : Settings) (now : Int) : Settings :=
  { s with last_updated := some now }

/-- Process state: the in-memory settings dict, the persisted file content
(none before the first write), and the last commanded relay states. -/
structure Sys where
  settings : Settings
  disk : Option Settings
  pump_on : Bool
  cell_on : Bool
deriving DecidableEq, Repr

/-- The state dict at startup with a fresh default settings document. -/
def initSys : Sys :=
  { settings := DEFAULT_SETTINGS, disk := none, pump_on := false, cell_on := false }

/-- set_pump: records the commanded pump relay state. -/
def set_pump (sys : Sys) (b : Bool) : Sys :=
  { sys with pump_on := b }

/-- evaluate_auto_schedule: when mode is the string auto, commands the pump to
the schedule entry for the current local hour. -/
def evaluate_auto_schedule (sys : Sys) (hour : Fin 24) : Sys :=
  if sys.settings.mode = some "auto" then
    set_pump sys (sys.settings.schedule.getD hour.val false)
  else sys

/-- check_boost_timeout: when boost_until is set, parse it; on success and an
elapsed deadline clear it, set mode auto and persist; when parsing raises,
the except branch clears boost_until and persists without touching mode.  The
current mode is never consulted. -/
def check_boost_timeout (sys : Sys) (now : Int) : Sys :=
  match sys.settings.boost_until with
  | none => sys
  | some ts =>
    match fromisoformat ts with
    | some t =>
      if now ≥ t then
        let s := save_settings { sys.settings with boost_until := none, mode := some "auto" } now
        { sys with settings := s, disk := some s }
      else sys
    | none =>
      let s := save_settings { sys.settings with boost_until := none } now
      { sys with settings := s, disk := some s }

/-- check_manual_auto_off: when manual_on_until is set, parse it; on success
and an elapsed deadline clear manual_state and the deadline, set mode auto and
persist; when parsing raises, the except branch clears manual_state and the
deadline and persists without touching mode. -/
def check_manual_auto_off (sys : Sys) (now : Int) : Sys :=
  match sys.settings.manual_on_until with
  | none => sys
  | some ts =>
    match fromisoformat ts with
    | some t =>
      if now ≥ t then
        let s := save_settings
          { sys.settings with manual_state := false, manual_on_until := none, mode := some "auto" } now
        { sys with settings := s, disk := some s }
      else sys
    | none =>
      let s := save_settings { sys.settings with manual_state := false, manual_on_until := none } now
      { sys with settings := s, disk := some s }

/-- apply_mode_on_change: the if/elif chain over the mode string; the auto
branch delegates to evaluate_auto_schedule, any unrecognised or unset mode
commands the pump OFF. -/
def apply_mode_on_change (sys : Sys) (hour : Fin 24) : Sys :=
  if sys.settings.mode = some "manual" then set_pump sys sys.settings.manual_state
  else if sys.settings.mode = some "auto" then evaluate_auto_schedule sys hour
  else if sys.settings.mode = some "boost" then set_pump sys true
  else set_pump sys false

/-- The cell state computed by one iteration of cell_task: pump off gives
bridge off; pump on gives on during even 15-minute windows of absolute epoch
time (epoch_min = epoch seconds // 60). -/
def cell_task_output (pump : Bool) (epoch_sec : Nat) : Bool :=
  if pump then
    let epoch_min := epoch_sec / 60
    (epoch_min / 15) % 2 == 0
  else false

/-- set_pwm: clamps the duty to [0, 100], stores and persists it. -/
def set_pwm (sys : Sys) (duty : Int) (now : Int) : Sys :=
  let d := max 0 (min 100 duty)
  let s := save_settings { sys.settings with pwm_duty := d } now
  { sys with settings := s, disk := some s }

/-- pwm_route (/pwm POST): calls set_pwm on the posted duty and answers with
a JSON body whose pwm_duty field is the local variable duty, i.e. the raw
posted value, not the clamped one. -/
def pwm_route (sys : Sys) (duty : Int) (now : Int) : Sys × Int :=
  (set_pwm sys duty now, duty)

/-- set_mode (/set POST): stores the posted mode string, on boost also stamps
boost_until = local now + 3 h, persists, then re-applies the output. -/
def set_mode (sys : Sys) (m : Option String) (now : Int) (hour : Fin 24) : Sys :=
  let s := { sys.settings with mode := m }
  let s := if m = some "boost" then { s with boost_until := some (TS.valid (now + 10800)) } else s
  let s := save_settings s now
  apply_mode_on_change { sys with settings := s, disk := some s } hour

/-- manual_toggle (/manual POST): stores the requested manual state, stamps
manual_on_until = local now + 8 h when turning on (clears it when turning
off), forces mode to manual, persists, then re-applies the output. -/
def manual_toggle (sys : Sys) (req : Bool) (now : Int) (hour : Fin 24) : Sys :=
  let s := { sys.settings with manual_state := req }
  let s := if req then { s with manual_on_until := some (TS.valid (now + 28800)) }
           else { s with manual_on_until := none }
  let s := { s with mode := some "manual" }
  let s := save_settings s now
  apply_mode_on_change { sys with settings := s, disk := some s } hour

/-- save_schedule (/save_schedule POST): rewrites every hour entry from the
posted form (an absent checkbox reads as false) and persists. -/
def save_schedule (sys : Sys) (sch : List Bool) (now : Int) : Sys :=
  let s := { sys.settings with schedule := (List.range 24).map (fun h => sch.getD h false) }
  let s := save_settings s now
  { sys with settings := s, disk := some s }

/-- set_dst (/set_dst POST): stores the dst checkbox and persists. -/
def set_dst (sys : Sys) (b : Bool) (now : Int) : Sys :=
  let s := save_settings { sys.settings with dst := b } now
  { sys with settings := s, disk := some s }

/-- The JSON body answered by /status.  The HH:MM:SS countdown strings are
modelled by the positive remaining seconds they format (absent when the
Python code leaves them None). -/
structure StatusJson where
  mode : Option String
  pump_on : Bool
  cell_on : Bool
  pwm_duty : Int
  boost_remaining : Option Int
  manual_remaining : Option Int
deriving DecidableEq, Repr

/-- status (/status GET): works on a shallow copy s of the settings dict.
When mode is the string boost and boost_until is set, the deadline is parsed
with no exception handler (an unparseable value raises out of the handler,
modelled by the none result); a non-positive remainder clears the deadline
and sets mode auto on the copy and persists the copy, leaving the in-memory
dict untouched.  The manual section is analogous, guarded by manual_state and
manual_on_until on the (possibly already updated) copy.  Returns the state
after the call and the JSON body. -/
def status (sys : Sys) (now : Int) : Option (Sys × StatusJson) :=
  let s0 := sys.settings
  let boostStep : Option (Settings × Option Settings × Option Int) :=
    if s0.mode = some "boost" ∧ s0.boost_until.isSome then
      match s0.boost_until with
      | some ts =>
        match fromisoformat ts with
        | none => none
        | some t =>
          let seconds := t - now
          if seconds > 0 then some (s0, none, some seconds)
          else
            let s1 := save_settings { s0 with boost_until := none, mode := some "auto" } now
            some (s1, some s1, none)
      | none => some (s0, none, none)
    else some (s0, none, none)
  match boostStep with
  | none => none
  | some (s1, d1, br) =>
    let manualStep : Option (Settings × Option Settings × Option Int) :=
      if s1.manual_state ∧ s1.manual_on_until.isSome then
        match s1.manual_on_until with
        | some ts =>
          match fromisoformat ts with
          | none => none
          | some t =>
            let seconds := t - now
            if seconds > 0 then some (s1, d1, some seconds)
            else
              let s2 := save_settings
                { s1 with manual_state := false, manual_on_until := none, mode := some "auto" } now
              some (s2, some s2, none)
        | none => some (s1, d1, none)
      else some (s1, d1, none)
    match manualStep with
    | none => none
    | some (s2, d2, mr) =>
      some ({ sys with disk := match d2 with | some d => some d | none => sys.disk },
            { mode := s2.mode
            , pump_on := sys.pump_on
            , cell_on := sys.cell_on
            , pwm_duty := s2.pwm_duty
            , boost_remaining := br
            , manual_remaining := mr })

/-- The externally triggerable operations of the controller: the POST routes,
the two expiry checks the scheduler loop runs, and a /status poll. -/
inductive Op where
  | opSetMode (m : Option String) (now : Int) (hour : Fin 24)
  | opSetManual (req : Bool) (now : Int) (hour : Fin 24)
  | opSaveSchedule (sch : List Bool) (now : Int)
  | opSetPwm (duty : Int) (now : Int)
  | opSetDst (b : Bool) (now : Int)
  | opCheckBoost (now : Int)
  | opCheckManual (now : Int)
  | opStatus (now : Int)
deriving DecidableEq, Repr

/-- One operation applied to the process state.  A /status call whose parse
raises leaves the state as it was when the exception escaped. -/
def step (sys : Sys) (op : Op) : Sys :=
  match op with
  | Op.opSetMode m now hour => set_mode sys m now hour
  | Op.opSetManual req now hour => manual_toggle sys req now hour
  | Op.opSaveSchedule sch now => save_schedule sys sch now
  | Op.opSetPwm duty now => set_pwm sys duty now
  | Op.opSetDst b now => set_dst sys b now
  | Op.opCheckBoost now => check_boost_timeout sys now
  | Op.opCheckManual now => check_manual_auto_off sys now
  | Op.opStatus now =>
    match status sys now with
    | some (sys2, _) => sys2
    | none => sys

/-- A sequence of operations run from a starting state. -/
def run (sys : Sys) (ops : List Op) : Sys :=
  ops.foldl step sys

/-- Helper: re-applying the output never changes the settings dict or the
persisted file, only the commanded pump relay. -/
theorem apply_mode_on_change_settings (sys : Sys) (hour : Fin 24) :
    (apply_mode_on_change sys hour).settings = sys.settings
    ∧ (apply_mode_on_change sys hour).disk = sys.disk := by
  unfold apply_mode_on_change evaluate_auto_schedule set_pump
  split_ifs <;> exact ⟨rfl, rfl⟩

/-- C1: apply_mode_on_change commands the pump according to the current mode:
MANUAL commands manual_state, AUTO commands the schedule entry for the
current local hour, BOOST commands ON, and any other or unset mode value
commands OFF. -/
theorem apply_mode_commands_pump (sys : Sys) (hour : Fin 24) :
    (apply_mode_on_change sys hour).pump_on =
      (if sys.settings.mode = some "manual" then sys.settings.manual_state
       else if sys.settings.mode = some "auto" then sys.settings.schedule.getD hour.val false
       else if sys.settings.mode = some "boost" then true
       else false) := by
  unfold apply_mode_on_change evaluate_auto_schedule set_pump
  split_ifs <;> simp_all

/-- C7: the cell task output is OFF whenever the pump is OFF, and with the
pump ON it is ON exactly during the even 15-minute windows of absolute epoch
time; adding 15 minutes to the clock always flips it, independent of any
pump-on instant. -/
theorem cell_task_alternates (t : Nat) :
    cell_task_output false t = false
    ∧ (cell_task_output true t = true ↔ (t / 60 / 15) % 2 = 0)
    ∧ cell_task_output true (t + 15 * 60) = !cell_task_output true t := by
  refine ⟨rfl, by simp [cell_task_output], ?_⟩
  have h1 : (t + 15 * 60) / 60 = t / 60 + 15 := by omega
  have h2 : (t / 60 + 15) / 15 = t / 60 / 15 + 1 := by omega
  simp only [cell_task_output, if_pos]
  rw [h1, h2]
  rcases Nat.mod_two_eq_zero_or_one (t / 60 / 15) with h | h
  · have h' : (t / 60 / 15 + 1) % 2 = 1 := by omega
    rw [h, h']
    decide
  · have h' : (t / 60 / 15 + 1) % 2 = 0 := by omega
    rw [h, h']
    decide

/-- C9 (amended): pwm_route stores and persists the clamped duty but answers
with the raw posted duty in the JSON body. -/
theorem pwm_route_clamps_store_echoes_raw (sys : Sys) (duty now : Int) :
    ((pwm_route sys duty now).1.settings.pwm_duty = max 0 (min 100 duty))
    ∧ ((pwm_route sys duty now).1.disk = some (pwm_route sys duty now).1.settings)
    ∧ ((pwm_route sys duty now).2 = duty) := by
  unfold pwm_route set_pwm save_settings
  simp

/-- C9 counterexample: posting duty 150 stores the clamp 100 but the response
body carries 150, so the response does not equal the clamped value. -/
theorem pwm_route_response_cex :
    ((pwm_route initSys 150 0).1.settings.pwm_duty = 100)
    ∧ ((pwm_route initSys 150 0).2 = 150)
    ∧ (pwm_route initSys 150 0).2 ≠ (pwm_route initSys 150 0).1.settings.pwm_duty := by
  decide

/-- C10: set_mode only writes the mode field, plus boost_until when the
target is the boost string (switching to auto or manual leaves a pending
boost_until in place), and never touches manual_state, manual_on_until, the
schedule, pwm_duty or dst. -/
theorem set_mode_frame (sys : Sys) (m : Option String) (now : Int) (hour : Fin 24) :
    (set_mode sys m now hour).settings.mode = m
    ∧ (set_mode sys m now hour).settings.boost_until =
        (if m = some "boost" then some (TS.valid (now + 10800)) else sys.settings.boost_until)
    ∧ (set_mode sys m now hour).settings.manual_state = sys.settings.manual_state
    ∧ (set_mode sys m now hour).settings.manual_on_until = sys.settings.manual_on_until
    ∧ (set_mode sys m now hour).settings.schedule = sys.settings.schedule
    ∧ (set_mode sys m now hour).settings.pwm_duty = sys.settings.pwm_duty
    ∧ (set_mode sys m now hour).settings.dst = sys.settings.dst := by
  unfold set_mode
  rw [(apply_mode_on_change_settings _ _).1]
  unfold save_settings
  split_ifs <;> simp_all

/-- Helper: the settings written by a /set request targeting boost. -/
theorem set_mode_boost_settings (sys : Sys) (now : Int) (hour : Fin 24) :
    (set_mode sys (some "boost") now hour).settings =
      { sys.settings with
          mode := some "boost",
          boost_until := some (TS.valid (now + 10800)),
          last_updated := some now } := by
  unfold set_mode
  rw [(apply_mode_on_change_settings _ _).1]
  simp [save_settings]

/-- Helper: check_boost_timeout on a parseable deadline d either expires it
(now at or past d) or does nothing. -/
theorem check_boost_timeout_valid (sys : Sys) (d now : Int)
    (h : sys.settings.boost_until = some (TS.valid d)) :
    check_boost_timeout sys now =
      if now ≥ d then
        { sys with
          settings := save_settings
            { sys.settings with boost_until := none, mode := some "auto" } now,
          disk := some (save_settings
            { sys.settings with boost_until := none, mode := some "auto" } now) }
      else sys := by
  unfold check_boost_timeout
  rw [h]
  rfl

/-- Helper: the settings written by a /manual request. -/
theorem manual_toggle_settings (sys : Sys) (req : Bool) (now : Int) (hour : Fin 24) :
    (manual_toggle sys req now hour).settings =
      { sys.settings with
          manual_state := req,
          manual_on_until := if req then some (TS.valid (now + 28800)) else none,
          mode := some "manual",
          last_updated := some now } := by
  unfold manual_toggle
  rw [(apply_mode_on_change_settings _ _).1]
  cases req <;> simp [save_settings]

/-- Helper: check_manual_auto_off on a parseable deadline d either expires it
(now at or past d) or does nothing. -/
theorem check_manual_auto_off_valid (sys : Sys) (d now : Int)
    (h : sys.settings.manual_on_until = some (TS.valid d)) :
    check_manual_auto_off sys now =
      if now ≥ d then
        { sys with
          settings := save_settings
            { sys.settings with
                manual_state := false,
                manual_on_until := none,
                mode := some "auto" } now,
          disk := some (save_settings
            { sys.settings with
                manual_state := false,
                manual_on_until := none,
                mode := some "auto" } now) }
      else sys := by
  unfold check_manual_auto_off
  rw [h]
  rfl

/-- A state in manual mode with a still pending boost deadline, as left behind
by a boost request followed by a manual request. -/
def sysC2 : Sys :=
  { settings := { DEFAULT_SETTINGS with
        mode := some "manual",
        manual_state := true,
        boost_until := some (TS.valid 50) },
    disk := none, pump_on := true, cell_on := false }

/-- C2 counterexample: the boost expiry action is not scoped to mode BOOST;
from a state in MANUAL mode with an elapsed boost deadline, the check still
clears the deadline and hijacks the mode to auto. -/
theorem check_boost_ignores_mode_cex :
    sysC2.settings.mode = some "manual"
    ∧ (check_boost_timeout sysC2 60).settings.mode = some "auto"
    ∧ (check_boost_timeout sysC2 60).settings.boost_until = none :=
  ⟨rfl, rfl, rfl⟩

/-- C2 (amended): setMode(BOOST, now) stamps boost_until = now + 3 h, a check
strictly before the deadline changes nothing, a check strictly after it yields
mode auto with the deadline cleared; the expiry action is guarded only by
boost_until being set and elapsed, not by the current mode, so it fires from
any mode. -/
theorem boost_lifecycle (sys sys2 : Sys) (now t1 t2 t3 d : Int) (hour : Fin 24)
    (h1 : t1 < now + 10800) (h2 : t2 > now + 10800)
    (hd : sys2.settings.boost_until = some (TS.valid d)) (h3 : t3 ≥ d) :
    (set_mode sys (some "boost") now hour).settings.boost_until = some (TS.valid (now + 10800))
    ∧ (set_mode sys (some "boost") now hour).settings.mode = some "boost"
    ∧ (check_boost_timeout (set_mode sys (some "boost") now hour) t1).settings
        = (set_mode sys (some "boost") now hour).settings
    ∧ (check_boost_timeout (set_mode sys (some "boost") now hour) t2).settings.mode = some "auto"
    ∧ (check_boost_timeout (set_mode sys (some "boost") now hour) t2).settings.boost_until = none
    ∧ (check_boost_timeout sys2 t3).settings.mode = some "auto"
    ∧ (check_boost_timeout sys2 t3).settings.boost_until = none := by
  have hs := set_mode_boost_settings sys now hour
  have hbu : (set_mode sys (some "boost") now hour).settings.boost_until
      = some (TS.valid (now + 10800)) := by rw [hs]
  refine ⟨hbu, by rw [hs], ?_, ?_, ?_, ?_, ?_⟩
  · rw [check_boost_timeout_valid _ (now + 10800) t1 hbu, if_neg (by omega)]
  · rw [check_boost_timeout_valid _ (now + 10800) t2 hbu, if_pos (by omega)]; rfl
  · rw [check_boost_timeout_valid _ (now + 10800) t2 hbu, if_pos (by omega)]; rfl
  · rw [check_boost_timeout_valid _ d t3 hd, if_pos h3]; rfl
  · rw [check_boost_timeout_valid _ d t3 hd, if_pos h3]; rfl

/-- C2 witness: the boost lifecycle evaluated at now = 0 with checks at
10000 and 20000 seconds, and the any-mode expiry at sysC2 with t3 = 60. -/
theorem boost_lifecycle_witness :
    (10000 : Int) < 0 + 10800
    ∧ (20000 : Int) > 0 + 10800
    ∧ sysC2.settings.boost_until = some (TS.valid 50)
    ∧ (60 : Int) ≥ 50
    ∧ ((set_mode initSys (some "boost") 0 0).settings.boost_until = some (TS.valid (0 + 10800))
       ∧ (set_mode initSys (some "boost") 0 0).settings.mode = some "boost"
       ∧ (check_boost_timeout (set_mode initSys (some "boost") 0 0) 10000).settings
           = (set_mode initSys (some "boost") 0 0).settings
       ∧ (check_boost_timeout (set_mode initSys (some "boost") 0 0) 20000).settings.mode
           = some "auto"
       ∧ (check_boost_timeout (set_mode initSys (some "boost") 0 0) 20000).settings.boost_until
           = none
       ∧ (check_boost_timeout sysC2 60).settings.mode = some "auto"
       ∧ (check_boost_timeout sysC2 60).settings.boost_until = none) :=
  ⟨by norm_num, by norm_num, rfl, by norm_num,
   boost_lifecycle initSys sysC2 0 10000 20000 60 50 0
     (by norm_num) (by norm_num) rfl (by norm_num)⟩

/-- C3: setManual(true, now) stores manual_state true, mode manual and an
8 hour deadline (setManual(false, now) clears the deadline); a manual expiry
check strictly after the deadline yields mode auto with manual_state false and
the deadline cleared. -/
theorem manual_lifecycle (sys : Sys) (now t : Int) (hour : Fin 24)
    (ht : t > now + 28800) :
    (manual_toggle sys true now hour).settings.manual_state = true
    ∧ (manual_toggle sys true now hour).settings.mode = some "manual"
    ∧ (manual_toggle sys true now hour).settings.manual_on_until
        = some (TS.valid (now + 28800))
    ∧ (manual_toggle sys false now hour).settings.manual_on_until = none
    ∧ (check_manual_auto_off (manual_toggle sys true now hour) t).settings.mode = some "auto"
    ∧ (check_manual_auto_off (manual_toggle sys true now hour) t).settings.manual_state = false
    ∧ (check_manual_auto_off (manual_toggle sys true now hour) t).settings.manual_on_until
        = none := by
  have hs := manual_toggle_settings sys true now hour
  have hs2 := manual_toggle_settings sys false now hour
  have hmu : (manual_toggle sys true now hour).settings.manual_on_until
      = some (TS.valid (now + 28800)) := by rw [hs]; simp
  refine ⟨by rw [hs], by rw [hs], hmu, by rw [hs2]; simp, ?_, ?_, ?_⟩
  · rw [check_manual_auto_off_valid _ (now + 28800) t hmu, if_pos (by omega)]; rfl
  · rw [check_manual_auto_off_valid _ (now + 28800) t hmu, if_pos (by omega)]; rfl
  · rw [check_manual_auto_off_valid _ (now + 28800) t hmu, if_pos (by omega)]; rfl

/-- C3 witness: the manual lifecycle evaluated from the startup state at
now = 100 with the expiry check at 30000 seconds. -/
theorem manual_lifecycle_witness :
    (30000 : Int) > 100 + 28800
    ∧ ((manual_toggle initSys true 100 0).settings.manual_state = true
       ∧ (manual_toggle initSys true 100 0).settings.mode = some "manual"
       ∧ (manual_toggle initSys true 100 0).settings.manual_on_until
           = some (TS.valid (100 + 28800))
       ∧ (manual_toggle initSys false 100 0).settings.manual_on_until = none
       ∧ (check_manual_auto_off (manual_toggle initSys true 100 0) 30000).settings.mode
           = some "auto"
       ∧ (check_manual_auto_off (manual_toggle initSys true 100 0) 30000).settings.manual_state
           = false
       ∧ (check_manual_auto_off (manual_toggle initSys true 100 0) 30000).settings.manual_on_until
           = none) :=
  ⟨by norm_num, manual_lifecycle initSys 100 30000 0 (by norm_num)⟩

/-- A boost-mode state whose boost and manual deadline strings are both
unparseable, with manual_state set. -/
def sysC4 : Sys :=
  { settings := { DEFAULT_SETTINGS with
        mode := some "boost",
        manual_state := true,
        boost_until := some TS.invalid,
        manual_on_until := some TS.invalid },
    disk := none, pump_on := true, cell_on := false }

/-- C4 counterexample: with an unparseable boost deadline in boost mode, the
expiry check clears the deadline but leaves mode boost instead of reverting to
auto, and the /status read path raises the parse exception to the caller. -/
theorem unparseable_deadline_cex :
    (check_boost_timeout sysC4 5).settings.boost_until = none
    ∧ (check_boost_timeout sysC4 5).settings.mode = some "boost"
    ∧ status sysC4 5 = none :=
  ⟨rfl, rfl, rfl⟩

/-- C4 (amended): for every state in boost mode whose boost and manual
deadlines are unparseable, the periodic expiry checks clear the offending
deadline without raising (the manual check also clears manual_state) but leave
the mode unchanged instead of reverting it to auto, while the /status handler
has no parse-failure handling and the exception escapes to the caller. -/
theorem unparseable_deadline_behavior (sys : Sys) (now : Int)
    (hb : sys.settings.boost_until = some TS.invalid)
    (hm : sys.settings.manual_on_until = some TS.invalid)
    (hmode : sys.settings.mode = some "boost") :
    (check_boost_timeout sys now).settings.boost_until = none
    ∧ (check_boost_timeout sys now).settings.mode = some "boost"
    ∧ (check_manual_auto_off sys now).settings.manual_on_until = none
    ∧ (check_manual_auto_off sys now).settings.manual_state = false
    ∧ (check_manual_auto_off sys now).settings.mode = some "boost"
    ∧ status sys now = none := by
  refine ⟨?_, ?_, ?_, ?_, ?_, ?_⟩
  · unfold check_boost_timeout
    rw [hb]
    rfl
  · unfold check_boost_timeout
    rw [hb]
    exact hmode
  · unfold check_manual_auto_off
    rw [hm]
    rfl
  · unfold check_manual_auto_off
    rw [hm]
    rfl
  · unfold check_manual_auto_off
    rw [hm]
    exact hmode
  · simp [status, hmode, hb, fromisoformat]

/-- C4 witness: the amended behavior evaluated at the doubly unparseable boost
state sysC4 with the clock at 9. -/
theorem unparseable_deadline_behavior_witness :
    sysC4.settings.boost_until = some TS.invalid
    ∧ sysC4.settings.manual_on_until = some TS.invalid
    ∧ sysC4.settings.mode = some "boost"
    ∧ ((check_boost_timeout sysC4 9).settings.boost_until = none
       ∧ (check_boost_timeout sysC4 9).settings.mode = some "boost"
       ∧ (check_manual_auto_off sysC4 9).settings.manual_on_until = none
       ∧ (check_manual_auto_off sysC4 9).settings.manual_state = false
       ∧ (check_manual_auto_off sysC4 9).settings.mode = some "boost"
       ∧ status sysC4 9 = none) :=
  ⟨rfl, rfl, rfl, unparseable_deadline_behavior sysC4 9 rfl rfl rfl⟩

/-- A boost-mode state whose parseable boost deadline (instant 100) has
already passed at clock 200. -/
def sysC5 : Sys :=
  { settings := { DEFAULT_SETTINGS with
        mode := some "boost",
        boost_until := some (TS.valid 100) },
    disk := none, pump_on := true, cell_on := false }

/-- C5: at an elapsed boost deadline the /status call reports mode auto in its
JSON and persists an auto settings document to the file, yet the in-memory
settings dict it returns to the process still holds mode boost with the
deadline set, whereas the periodic check applied to the same state updates the
in-memory dict to auto with the deadline cleared: the two paths do not
converge on the authoritative state. -/
theorem status_leaves_memory_stale :
    ((status sysC5 200).map (fun r =>
        (r.1.settings.mode, r.1.settings.boost_until,
         r.1.disk.map (fun f => f.mode), r.2.mode))
      = some (some "boost", some (TS.valid 100), some (some "auto"), some "auto"))
    ∧ (check_boost_timeout sysC5 200).settings.mode = some "auto"
    ∧ (check_boost_timeout sysC5 200).settings.boost_until = none :=
  ⟨rfl, rfl, rfl⟩

/-- C6 counterexample: a boost request at time 0 followed by a manual-on
request at time 100 reaches a state that is simultaneously manual and boost:
mode is manual while the boost deadline, due only at 10800, is still pending. -/
theorem mode_exclusivity_cex :
    (run initSys [Op.opSetMode (some "boost") 0 0,
        Op.opSetManual true 100 0]).settings.mode = some "manual"
    ∧ (run initSys [Op.opSetMode (some "boost") 0 0,
        Op.opSetManual true 100 0]).settings.boost_until = some (TS.valid 10800)
    ∧ (100 : Int) < 10800 :=
  ⟨rfl, rfl, by norm_num⟩

/-- C6 (amended): the mode field holds one value at a time, but a state that
is simultaneously manual and boost is reachable, because setManual leaves a
pending boost_until in place; the overlap is transient: any boost expiry check
at or after a parseable boost deadline collapses the state to mode auto with
the deadline cleared, whatever the current mode. -/
theorem manual_boost_overlap_resolved (sys : Sys) (d t : Int)
    (hd : sys.settings.boost_until = some (TS.valid d)) (ht : t ≥ d) :
    (check_boost_timeout sys t).settings.mode = some "auto"
    ∧ (check_boost_timeout sys t).settings.boost_until = none := by
  rw [check_boost_timeout_valid _ d t hd, if_pos ht]
  exact ⟨rfl, rfl⟩

/-- C6 witness: the overlap state reached by boost-then-manual is collapsed
back to auto by the boost check at time 10900. -/
theorem manual_boost_overlap_resolved_witness :
    (run initSys [Op.opSetMode (some "boost") 0 0,
        Op.opSetManual true 100 0]).settings.boost_until = some (TS.valid 10800)
    ∧ (10900 : Int) ≥ 10800
    ∧ ((check_boost_timeout (run initSys [Op.opSetMode (some "boost") 0 0,
          Op.opSetManual true 100 0]) 10900).settings.mode = some "auto"
       ∧ (check_boost_timeout (run initSys [Op.opSetMode (some "boost") 0 0,
          Op.opSetManual true 100 0]) 10900).settings.boost_until = none) :=
  ⟨rfl, by norm_num,
   manual_boost_overlap_resolved _ 10800 10900 rfl (by norm_num)⟩

/-- C8: loading a document whose schedule has length other than 24 yields a
schedule of exactly 24 false entries, while every other field present in the
document is preserved unchanged and every missing field independently takes
its default. -/
theorem load_settings_bad_schedule (d : Doc) (l : List Bool)
    (hs : d.schedule = some l) (hl : l.length ≠ 24) :
    (load_settings d).schedule = List.replicate 24 false
    ∧ (load_settings d).mode = d.mode.getD (some "auto")
    ∧ (load_settings d).manual_state = d.manual_state.getD false
    ∧ (load_settings d).manual_on_until = d.manual_on_until.getD none
    ∧ (load_settings d).boost_until = d.boost_until.getD none
    ∧ (load_settings d).pwm_duty = d.pwm_duty.getD 0
    ∧ (load_settings d).dst = d.dst.getD false
    ∧ (load_settings d).last_updated = d.last_updated.getD none := by
  unfold load_settings
  rw [hs]
  simp [hl]

/-- A stored document with a two-entry schedule, a present mode, pwm and
boost deadline, and the remaining keys missing. -/
def docW : Doc :=
  { mode := some (some "manual")
  , manual_state := none
  , manual_on_until := none
  , schedule := some [true, false]
  , boost_until := some (some TS.invalid)
  , pwm_duty := some 555
  , dst := none
  , last_updated := none }

/-- C8 witness: loading docW, whose schedule has length 2, replaces the
schedule with 24 false entries and keeps or defaults every other field. -/
theorem load_settings_bad_schedule_witness :
    docW.schedule = some [true, false]
    ∧ [true, false].length ≠ 24
    ∧ ((load_settings docW).schedule = List.replicate 24 false
       ∧ (load_settings docW).mode = docW.mode.getD (some "auto")
       ∧ (load_settings docW).manual_state = docW.manual_state.getD false
       ∧ (load_settings docW).manual_on_until = docW.manual_on_until.getD none
       ∧ (load_settings docW).boost_until = docW.boost_until.getD none
       ∧ (load_settings docW).pwm_duty = docW.pwm_duty.getD 0
       ∧ (load_settings docW).dst = docW.dst.getD false
       ∧ (load_settings docW).last_updated = docW.last_updated.getD none) :=
  ⟨rfl, by decide, load_settings_bad_schedule docW [true, false] rfl (by decide)⟩

end Pool
